import Mathlib

/-!
Verification of the messenger client delivery subsystem.

The development shallowly embeds the Python sources:
* `ds_protocol.py` — `DirectMessagingProtocol.parse_response` / `parse_messages`;
* `ds_messenger.py` — `DirectMessenger` (connect / send / retrieve_new /
  retrieve_all / close);
* `database.py` — the `pending_messages` queue operations of `MessageDatabase`;
* `messenger.py` — `MessengerApp` (`_network_worker` body, `_handle_send_failure`,
  `_try_reconnect`, `_connect`, `_flush_pending_messages`).

Python JSON values are modelled by the inductive `Json` (with `Json.null`
standing for Python `None`); the result of `json.loads` on a wire line is
modelled as `Option Json` (`none` = `json.JSONDecodeError`).  Network effects
are passed in explicitly as environment values, and the Python exceptions a
`try` body can raise are modelled with `Except`, the enclosing handlers being
the wrapping functions.
-/

namespace Messenger

/-- A decoded JSON value as produced by Python `json.loads`.
`Json.null` models Python `None`; `Json.obj` models a `dict`
(its association list has pairwise distinct keys). -/
inductive Json where
  | null : Json
  | bool : Bool → Json
  | num : Int → Json
  | str : String → Json
  | arr : List Json → Json
  | obj : List (String × Json) → Json

/-- Python `j == s` between a JSON value and a string literal: true exactly
when `j` is that string (no other JSON value compares equal to a `str`). -/
def jsonEqStr (j : Json) (s : String) : Bool :=
  match j with
  | Json.str s2 => s2 == s
  | _ => false

/-- Python `s in xs` for a string and a list of JSON values: element-wise
`==`, which holds exactly for an equal string element. -/
def listContainsStr (xs : List Json) (s : String) : Bool :=
  xs.any (fun j => jsonEqStr j s)

/-- Key lookup in the association list of a `Json.obj` (Python `dict` access). -/
def jlookup (fields : List (String × Json)) (k : String) : Option Json :=
  match fields with
  | [] => none
  | (k2, v) :: rest => if k2 = k then some v else jlookup rest k

/-- Python `d.get(k)`: the stored value, or `None` when the key is absent. -/
def dictGet (fields : List (String × Json)) (k : String) : Json :=
  match jlookup fields k with
  | some v => v
  | none => Json.null

/-- Python `d.get(k, default)`. -/
def dictGetD (fields : List (String × Json)) (k : String) (d : Json) : Json :=
  match jlookup fields k with
  | some v => v
  | none => d

/-- Python `k in d` for a `dict`. -/
def containsKey (fields : List (String × Json)) (k : String) : Bool :=
  (jlookup fields k).isSome

/-- Substring test, modelling Python `pat in s` for strings. -/
def strContains (s pat : String) : Bool :=
  (List.range (s.length + 1)).any (fun i => pat.isPrefixOf (String.drop s i))

/-- Python truthiness of a JSON value (`if x:`). -/
def jsonTruthy : Json → Bool
  | Json.null => false
  | Json.bool b => b
  | Json.num n => n != 0
  | Json.str s => s != ""
  | Json.arr xs => !xs.isEmpty
  | Json.obj fs => !fs.isEmpty

/-- Python truthiness of an optional string (`if self.username:`). -/
def strTruthy : Option String → Bool
  | none => false
  | some s => s != ""

/-- The Python exceptions the protocol / messenger `try` bodies can raise. -/
inductive PyError where
  | jsonDecodeError
  | attributeError
  | typeError
deriving DecidableEq

/-- `ds_protocol.ServerResponse` namedtuple: fields are the Python values
`resp.get('type')`, `resp.get('message', '')`, `resp.get('token', '')`. -/
structure ServerResponse where
  type : Json
  message : Json
  token : Json

/-- `ds_protocol.MessageResponse` namedtuple: fields are
`resp.get('type')` and `resp.get('messages', [])`. -/
structure MessageResponse where
  type : Json
  messages : Json

/-- Models the Python fragment `if 'response' in json_obj: resp = json_obj['response']`
for an arbitrary loads result `j`:
* for a `dict`, the membership test plus subscript yield the stored value
  (`Except.ok none` when the key is absent, i.e. the branch is skipped);
* for a `str`, membership is a substring test and a positive subscript raises
  `TypeError`;
* for a `list`, membership is element membership and a positive subscript
  raises `TypeError`;
* for every other value the membership test itself raises `TypeError`. -/
def getResponseField (j : Json) : Except PyError (Option Json) :=
  match j with
  | Json.obj fields => Except.ok (jlookup fields "response")
  | Json.str s =>
      if strContains s "response" then Except.error PyError.typeError
      else Except.ok none
  | Json.arr xs =>
      if listContainsStr xs "response" then Except.error PyError.typeError
      else Except.ok none
  | _ => Except.error PyError.typeError

/-- The `try` body of `DirectMessagingProtocol.parse_response`, on the
`json.loads` outcome of the input line (`none` = `JSONDecodeError`, raised
inside the body).  `resp.get(...)` on a non-`dict` raises `AttributeError`.
Returning `Except.ok none` models falling through to `return None`. -/
def parse_response_try (loaded : Option Json) :
    Except PyError (Option ServerResponse) :=
  match loaded with
  | none => Except.error PyError.jsonDecodeError
  | some j =>
    match getResponseField j with
    | Except.error e => Except.error e
    | Except.ok none => Except.ok none
    | Except.ok (some resp) =>
      match resp with
      | Json.obj fields =>
          Except.ok (some ⟨dictGet fields "type",
                           dictGetD fields "message" (Json.str ""),
                           dictGetD fields "token" (Json.str "")⟩)
      | _ => Except.error PyError.attributeError

/-- `DirectMessagingProtocol.parse_response`: the `try` body with its
`except` handlers, which catch every exception, print, and `return None`. -/
def parse_response (loaded : Option Json) : Option ServerResponse :=
  match parse_response_try loaded with
  | Except.ok v => v
  | Except.error _ => none

/-- The `try` body of `DirectMessagingProtocol.parse_messages`. -/
def parse_messages_try (loaded : Option Json) :
    Except PyError (Option MessageResponse) :=
  match loaded with
  | none => Except.error PyError.jsonDecodeError
  | some j =>
    match getResponseField j with
    | Except.error e => Except.error e
    | Except.ok none => Except.ok none
    | Except.ok (some resp) =>
      match resp with
      | Json.obj fields =>
          Except.ok (some ⟨dictGet fields "type",
                           dictGetD fields "messages" (Json.arr [])⟩)
      | _ => Except.error PyError.attributeError

/-- `DirectMessagingProtocol.parse_messages`: the `try` body with its
all-catching `except` handlers. -/
def parse_messages (loaded : Option Json) : Option MessageResponse :=
  match parse_messages_try loaded with
  | Except.ok v => v
  | Except.error _ => none

/-- C3: for every input line, `parse_response` and `parse_messages` convert
every exception of their `try` bodies into a `None` return (never raising to
the caller); in particular they return `None` when the line is not valid
JSON, when the loaded object lacks a `response` key, and when the `response`
value is `null`; and `parse_messages` defaults the `messages` field to the
empty list when the `messages` key is absent. -/
theorem parse_never_raises_and_failure_modes :
    (∀ loaded e, parse_response_try loaded = Except.error e →
        parse_response loaded = none) ∧
    (∀ loaded e, parse_messages_try loaded = Except.error e →
        parse_messages loaded = none) ∧
    (parse_response none = none ∧ parse_messages none = none) ∧
    (∀ fields, jlookup fields "response" = none →
        parse_response (some (Json.obj fields)) = none ∧
        parse_messages (some (Json.obj fields)) = none) ∧
    (∀ fields, jlookup fields "response" = some Json.null →
        parse_response (some (Json.obj fields)) = none ∧
        parse_messages (some (Json.obj fields)) = none) ∧
    (∀ rfields, jlookup rfields "messages" = none →
        parse_messages (some (Json.obj [("response", Json.obj rfields)])) =
          some ⟨dictGet rfields "type", Json.arr []⟩) := by
  refine ⟨?_, ?_, ⟨rfl, rfl⟩, ?_, ?_, ?_⟩
  · intro loaded e h
    simp [parse_response, h]
  · intro loaded e h
    simp [parse_messages, h]
  · intro fields h
    constructor
    · simp [parse_response, parse_response_try, getResponseField, h]
    · simp [parse_messages, parse_messages_try, getResponseField, h]
  · intro fields h
    constructor
    · simp [parse_response, parse_response_try, getResponseField, h]
    · simp [parse_messages, parse_messages_try, getResponseField, h]
  · intro rfields h
    simp [parse_messages, parse_messages_try, getResponseField, jlookup,
      dictGetD, h]

/-- Witness for C3 at concrete inputs: an invalid-JSON line, an object
without `response`, an object whose `response` is `null`, and a batch
object without a `messages` key. -/
theorem parse_never_raises_and_failure_modes_witness :
    parse_response (some (Json.obj [("ok", Json.num 1)])) = none ∧
    parse_messages (some (Json.obj [("response", Json.null)])) = none ∧
    parse_response none = none ∧
    parse_messages (some (Json.obj [("response",
        Json.obj [("type", Json.str "ok")])])) =
      some ⟨Json.str "ok", Json.arr []⟩ := by
  refine ⟨?_, ?_, ?_, ?_⟩
  · exact (parse_never_raises_and_failure_modes.2.2.2.1
      [("ok", Json.num 1)] (by simp [jlookup])).1
  · exact (parse_never_raises_and_failure_modes.2.2.2.2.1
      [("response", Json.null)] (by simp [jlookup])).2
  · exact parse_never_raises_and_failure_modes.2.2.1.1
  · exact parse_never_raises_and_failure_modes.2.2.2.2.2
      [("type", Json.str "ok")] (by simp [jlookup])

/-- State of a file-like resource of the messenger (`self.socket`,
`self.send_stream`, `self.recv_stream`): `absent` is Python `None`,
`openH` an open handle, `closedH` a closed one. -/
inductive Handle where
  | absent
  | openH
  | closedH
deriving DecidableEq

/-- Closing effect of `x.close()` guarded by `if x:` in
`DirectMessenger.close` (absent handles are skipped). -/
def closeHandle : Handle → Handle
  | Handle.absent => Handle.absent
  | Handle.openH => Handle.closedH
  | Handle.closedH => Handle.closedH

/-- `ds_messenger.DirectMessage`: fields start as Python `None`
(`Json.null`) and are filled from `msg.get(...)` values. -/
structure DirectMessage where
  recipient : Json
  message : Json
  timestamp : Json

/-- The mutable attributes of `ds_messenger.DirectMessenger` (the constant
`port = 3001` and the server address do not influence the modelled
behaviour and are carried for fidelity only). -/
structure DMessenger where
  token : Json
  dsuserver : String
  username : Option String
  password : Option String
  socket : Handle
  send_stream : Handle
  recv_stream : Handle

/-- `DirectMessenger.__init__(dsuserver, username, password)`:
`token = None`, `dsuserver = dsuserver or "127.0.0.1"`, handles `None`. -/
def DirectMessenger_init (dsuserver : Option String)
    (username password : Option String) : DMessenger :=
  { token := Json.null,
    dsuserver := match dsuserver with
      | some s => if s == "" then "127.0.0.1" else s
      | none => "127.0.0.1",
    username := username,
    password := password,
    socket := Handle.absent,
    send_stream := Handle.absent,
    recv_stream := Handle.absent }

/-- `DirectMessenger.close()`: closes each of the two streams and the
socket when present; its blanket `except` swallows release failures
(release failures are not injected in this model). -/
def DMessenger.close (m : DMessenger) : DMessenger :=
  { m with send_stream := closeHandle m.send_stream,
           recv_stream := closeHandle m.recv_stream,
           socket := closeHandle m.socket }

/-- `transportReleased m` holds when no socket or stream handle of `m`
remains open. -/
def transportReleased (m : DMessenger) : Bool :=
  m.socket != Handle.openH && m.send_stream != Handle.openH &&
    m.recv_stream != Handle.openH

/-- Network environment of one `connect()` call:
* `refused`: `socket.connect` raises (`ConnectionError` / `socket.error`);
* `established ioError loaded`: the TCP connection and `makefile` calls
  succeed; when credentials are present the join is written and one
  response line read — `ioError = true` models an exception raised by that
  write/flush/readline, and otherwise `loaded` is the `json.loads` outcome
  of the response line. -/
inductive ConnectEnv where
  | refused
  | established (ioError : Bool) (loaded : Option Json)

/-- `DirectMessenger.connect()`.  A fresh socket is assigned to
`self.socket` before the TCP connect; on an exception the handler prints,
calls `self.close()` and returns `False`.  With the connection established
and both credentials truthy, the join response is parsed; only a response
with `type == 'ok'` stores the token and returns `True`.  Every other path
reaches the in-body `return False` without touching `close()`.  All three
`except` clauses together catch every exception, so the call never raises:
the result is always a boolean paired with the updated attributes. -/
def DMessenger.connect (m : DMessenger) (env : ConnectEnv) :
    Bool × DMessenger :=
  match env with
  | ConnectEnv.refused =>
      (false, ({ m with socket := Handle.openH } : DMessenger).close)
  | ConnectEnv.established ioError loaded =>
      let m1 : DMessenger :=
        { m with socket := Handle.openH, send_stream := Handle.openH,
                 recv_stream := Handle.openH }
      if strTruthy m.username && strTruthy m.password then
        if ioError then (false, m1.close)
        else
          match parse_response loaded with
          | some resp =>
              if jsonEqStr resp.type "ok" then
                (true, { m1 with token := resp.token })
              else (false, m1)
          | none => (false, m1)
      else (false, m1)

/-- Environment of one `send` / `retrieve_new` / `retrieve_all` call:
the connect environment used when no token is held, whether the request
write / response read raises, and the `json.loads` outcome of the
response line. -/
structure CallEnv where
  connectEnv : ConnectEnv
  ioError : Bool
  loaded : Option Json

/-- Observables of one `DirectMessenger.send` call: the truth value the
call returns (Python returns `None` — falsy — when the response fails to
parse; the returned truthiness is modelled), the updated messenger, the
number of `connect()` attempts made, and the number of direct-message
requests written to the network. -/
structure SendOutcome where
  result : Bool
  state : DMessenger
  connectAttempts : Nat
  dmWrites : Nat

/-- The body of `DirectMessenger.send` after the token guard: write the
direct-message request, read one line, return `response and
response.type == 'ok'`; its handlers turn any exception into `False`. -/
def sendBody (m : DMessenger) (env : CallEnv) (attempts : Nat) :
    SendOutcome :=
  if env.ioError then ⟨false, m, attempts, 1⟩
  else
    match parse_response env.loaded with
    | some resp => ⟨jsonEqStr resp.type "ok", m, attempts, 1⟩
    | none => ⟨false, m, attempts, 1⟩

/-- `DirectMessenger.send(message, recipient)`: when `self.token` is falsy
a single `connect()` is attempted, and its failure returns `False` before
any direct-message request is created or written. -/
def DMessenger.send (m : DMessenger) (env : CallEnv) : SendOutcome :=
  if jsonTruthy m.token then sendBody m env 0
  else
    match m.connect env.connectEnv with
    | (false, m1) => ⟨false, m1, 1, 0⟩
    | (true, m1) => sendBody m1 env 1

/-- Observables of one `retrieve_new` / `retrieve_all` call. -/
structure RetrieveOutcome where
  messages : List DirectMessage
  state : DMessenger
  connectAttempts : Nat

/-- One loop iteration of `retrieve_new`: `dm.message = msg.get('message')`;
`dm.recipient = msg.get('from')`; `dm.timestamp = msg.get('timestamp')`.
`none` models the `AttributeError` raised by `.get` on a non-dict record. -/
def recordNew (msg : Json) : Option DirectMessage :=
  match msg with
  | Json.obj fields =>
      some ⟨dictGet fields "from", dictGet fields "message",
            dictGet fields "timestamp"⟩
  | _ => none

/-- One loop iteration of `retrieve_all`: the counterpart is
`msg.get('from')` when the record carries a `from` key and otherwise
`msg.get('recipient')`. -/
def recordAll (msg : Json) : Option DirectMessage :=
  match msg with
  | Json.obj fields =>
      some ⟨(if containsKey fields "from" then dictGet fields "from"
             else dictGet fields "recipient"),
            dictGet fields "message", dictGet fields "timestamp"⟩
  | _ => none

/-- Runs the record loop over a decoded batch; a record on which the loop
body raises aborts the whole loop (`none`). -/
def mapRecords (f : Json → Option DirectMessage) :
    List Json → Option (List DirectMessage)
  | [] => some []
  | x :: xs =>
      match f x, mapRecords f xs with
      | some d, some ds => some (d :: ds)
      | _, _ => none

/-- Shared shape of `retrieve_new` and `retrieve_all` (they differ only in
the request they write and the per-record body `f`): token guard with a
single implicit `connect()`, request write and response read, the
`response and response.type == 'ok'` guard, then the record loop; the
handlers turn any exception — transport or in-loop — into `[]`.
Iterating a non-list `messages` value either raises (`TypeError` on
non-iterables, `AttributeError` on the elements of a string or dict) or
yields no records; every such case returns `[]`.  `retrieveBody` is the
post-guard body, `retrieveWith` adds the token guard. -/
def retrieveBody (f : Json → Option DirectMessage) (m : DMessenger)
    (env : CallEnv) (attempts : Nat) : RetrieveOutcome :=
  if env.ioError then ⟨[], m, attempts⟩
  else
    match parse_messages env.loaded with
    | some resp =>
        if jsonEqStr resp.type "ok" then
          match resp.messages with
          | Json.arr xs =>
              match mapRecords f xs with
              | some ds => ⟨ds, m, attempts⟩
              | none => ⟨[], m, attempts⟩
          | _ => ⟨[], m, attempts⟩
        else ⟨[], m, attempts⟩
    | none => ⟨[], m, attempts⟩

/-- Token guard shared by `retrieve_new` and `retrieve_all`: a falsy token
triggers a single implicit `connect()`, whose failure returns `[]`. -/
def retrieveWith (f : Json → Option DirectMessage) (m : DMessenger)
    (env : CallEnv) : RetrieveOutcome :=
  if jsonTruthy m.token then retrieveBody f m env 0
  else
    match m.connect env.connectEnv with
    | (false, m1) => ⟨[], m1, 1⟩
    | (true, m1) => retrieveBody f m1 env 1

/-- `DirectMessenger.retrieve_new()`. -/
def DMessenger.retrieve_new (m : DMessenger) (env : CallEnv) :
    RetrieveOutcome :=
  retrieveWith recordNew m env

/-- `DirectMessenger.retrieve_all()`. -/
def DMessenger.retrieve_all (m : DMessenger) (env : CallEnv) :
    RetrieveOutcome :=
  retrieveWith recordAll m env

/-- A messenger that has completed a successful `connect()`: token held,
socket and both streams open. -/
def mConnected : DMessenger :=
  { token := Json.str "T1", dsuserver := "127.0.0.1",
    username := some "alice", password := some "pw",
    socket := Handle.openH, send_stream := Handle.openH,
    recv_stream := Handle.openH }

theorem closeHandle_not_open (h : Handle) :
    (closeHandle h != Handle.openH) = true := by
  cases h <;> rfl

theorem transportReleased_close (m : DMessenger) :
    transportReleased m.close = true := by
  simp [transportReleased, DMessenger.close, closeHandle_not_open]

theorem mapRecords_length (f : Json → Option DirectMessage) :
    ∀ xs ds, mapRecords f xs = some ds → ds.length = xs.length := by
  intro xs
  induction xs with
  | nil => intro ds h; simp [mapRecords] at h; simp [← h]
  | cons x xs ih =>
      intro ds h
      simp only [mapRecords] at h
      cases hx : f x with
      | none => rw [hx] at h; simp at h
      | some d =>
          rw [hx] at h
          cases hxs : mapRecords f xs with
          | none => rw [hxs] at h; simp at h
          | some ds2 =>
              rw [hxs] at h
              simp at h
              rw [← h]
              simp [ih ds2 hxs]

theorem sendBody_connectAttempts (m : DMessenger) (env : CallEnv) (a : Nat) :
    (sendBody m env a).connectAttempts = a := by
  unfold sendBody
  cases h : env.ioError <;> simp [h]
  cases parse_response env.loaded with
  | none => simp
  | some resp => simp

/-- C4 counterexample: `connect()` against a server that answers the join
with an error-type response returns `False` but does not release the
Transport — the socket and both streams remain open, because the in-body
`return False` paths never call `close()`. -/
theorem connect_no_release_counterexample :
    ((DirectMessenger_init none (some "alice") (some "pw")).connect
        (ConnectEnv.established false (some (Json.obj [("response",
          Json.obj [("type", Json.str "error"),
            ("message", Json.str "Invalid credentials")])])))).1 = false ∧
    transportReleased
      ((DirectMessenger_init none (some "alice") (some "pw")).connect
        (ConnectEnv.established false (some (Json.obj [("response",
          Json.obj [("type", Json.str "error"),
            ("message", Json.str "Invalid credentials")])])))).2 = false := by
  exact ⟨rfl, rfl⟩

/-- C4 (amended): `connect()` returns `false` on every failure mode —
refused connection, I/O error during the join, missing credentials,
malformed response, error-type response — and never raises (it is a total
function into `Bool`); it releases the Transport on the failures raised as
exceptions (refused connection, join I/O error), but on the protocol-level
failures (missing credentials, malformed response, error-type response)
the socket and streams are left open. -/
theorem connect_failure_modes (m : DMessenger) (loaded : Option Json) :
    ((m.connect ConnectEnv.refused).1 = false ∧
      transportReleased (m.connect ConnectEnv.refused).2 = true) ∧
    ((strTruthy m.username && strTruthy m.password) = true →
      (m.connect (ConnectEnv.established true loaded)).1 = false ∧
      transportReleased
        (m.connect (ConnectEnv.established true loaded)).2 = true) ∧
    ((strTruthy m.username && strTruthy m.password) = false →
      (m.connect (ConnectEnv.established false loaded)).1 = false ∧
      transportReleased
        (m.connect (ConnectEnv.established false loaded)).2 = false) ∧
    ((strTruthy m.username && strTruthy m.password) = true →
      parse_response loaded = none →
      (m.connect (ConnectEnv.established false loaded)).1 = false ∧
      transportReleased
        (m.connect (ConnectEnv.established false loaded)).2 = false) ∧
    (∀ resp, (strTruthy m.username && strTruthy m.password) = true →
      parse_response loaded = some resp → jsonEqStr resp.type "ok" = false →
      (m.connect (ConnectEnv.established false loaded)).1 = false ∧
      transportReleased
        (m.connect (ConnectEnv.established false loaded)).2 = false) := by
  refine ⟨⟨rfl, transportReleased_close _⟩, ?_, ?_, ?_, ?_⟩
  · intro hc
    simp [DMessenger.connect, hc, transportReleased_close]
  · intro hc
    simp [DMessenger.connect, hc, transportReleased]
  · intro hc hp
    simp [DMessenger.connect, hc, hp, transportReleased]
  · intro resp hc hp ht
    simp [DMessenger.connect, hc, hp, ht, transportReleased]

/-- Witness for C4 at concrete inputs: a credentialed messenger with a
refused connection (released), a join I/O error (released), and a
missing-credentials established connection (not released). -/
theorem connect_failure_modes_witness :
    (((DirectMessenger_init none (some "alice") (some "pw")).connect
        ConnectEnv.refused).1 = false ∧
      transportReleased ((DirectMessenger_init none (some "alice")
        (some "pw")).connect ConnectEnv.refused).2 = true) ∧
    (((DirectMessenger_init none (some "alice") (some "pw")).connect
        (ConnectEnv.established true none)).1 = false ∧
      transportReleased ((DirectMessenger_init none (some "alice")
        (some "pw")).connect (ConnectEnv.established true none)).2 = true) ∧
    (((DirectMessenger_init none none none).connect
        (ConnectEnv.established false none)).1 = false ∧
      transportReleased ((DirectMessenger_init none none none).connect
        (ConnectEnv.established false none)).2 = false) := by
  refine ⟨(connect_failure_modes (DirectMessenger_init none (some "alice")
      (some "pw")) none).1, ?_, ?_⟩
  · exact (connect_failure_modes (DirectMessenger_init none (some "alice")
      (some "pw")) none).2.1 rfl
  · exact (connect_failure_modes (DirectMessenger_init none none none)
      none).2.2.1 rfl

/-- C5: `send` called while no (truthy) session token is held attempts
exactly one `connect()`; when that connect fails, `send` returns `false`
having written no direct-message request to the network. -/
theorem send_no_token_one_connect (m : DMessenger) (env : CallEnv)
    (hTok : jsonTruthy m.token = false)
    (hFail : (m.connect env.connectEnv).1 = false) :
    (m.send env).result = false ∧ (m.send env).connectAttempts = 1 ∧
    (m.send env).dmWrites = 0 := by
  cases hc : m.connect env.connectEnv with
  | mk b m1 =>
      rw [hc] at hFail
      simp at hFail
      subst hFail
      simp [DMessenger.send, hTok, hc]

/-- Witness for C5: a fresh messenger (token `None`) whose connect is
refused returns `false` from `send` after exactly one connect attempt and
zero direct-message writes. -/
theorem send_no_token_one_connect_witness :
    jsonTruthy (DirectMessenger_init none none none).token = false ∧
    (((DirectMessenger_init none none none).connect ConnectEnv.refused).1
      = false) ∧
    ((DirectMessenger_init none none none).send
        ⟨ConnectEnv.refused, false, none⟩).result = false ∧
    ((DirectMessenger_init none none none).send
        ⟨ConnectEnv.refused, false, none⟩).connectAttempts = 1 ∧
    ((DirectMessenger_init none none none).send
        ⟨ConnectEnv.refused, false, none⟩).dmWrites = 0 := by
  refine ⟨rfl, rfl, ?_⟩
  have h := send_no_token_one_connect (DirectMessenger_init none none none)
    ⟨ConnectEnv.refused, false, none⟩ rfl rfl
  exact ⟨h.1, h.2.1, h.2.2⟩

/-- C7: `retrieve_all` resolves the counterpart of each raw record from
its `from` field when that key is present and from its `recipient` field
otherwise; a decoded batch holding one `from`-tagged and one
`recipient`-tagged record yields exactly the two messages with the
counterpart taken from `from` for the first and `recipient` for the
second. -/
theorem retrieve_all_counterpart (fields : List (String × Json)) :
    (containsKey fields "from" = true →
      recordAll (Json.obj fields) =
        some ⟨dictGet fields "from", dictGet fields "message",
              dictGet fields "timestamp"⟩) ∧
    (containsKey fields "from" = false →
      recordAll (Json.obj fields) =
        some ⟨dictGet fields "recipient", dictGet fields "message",
              dictGet fields "timestamp"⟩) ∧
    (mConnected.retrieve_all
      ⟨ConnectEnv.refused, false,
        some (Json.obj [("response", Json.obj [("type", Json.str "ok"),
          ("messages", Json.arr
            [Json.obj [("message", Json.str "hi"),
                       ("from", Json.str "sender1"),
                       ("timestamp", Json.str "100")],
             Json.obj [("message", Json.str "yo"),
                       ("recipient", Json.str "bob"),
                       ("timestamp", Json.str "200")]])])])⟩).messages =
      [⟨Json.str "sender1", Json.str "hi", Json.str "100"⟩,
       ⟨Json.str "bob", Json.str "yo", Json.str "200"⟩] := by
  refine ⟨?_, ?_, rfl⟩
  · intro h
    simp [recordAll, h]
  · intro h
    simp [recordAll, h]

/-- Witness for C7: a record carrying `from` and a record carrying only
`recipient`, resolved through `recordAll`. -/
theorem retrieve_all_counterpart_witness :
    recordAll (Json.obj [("message", Json.str "hi"),
        ("from", Json.str "sender1"), ("timestamp", Json.str "100")]) =
      some ⟨Json.str "sender1", Json.str "hi", Json.str "100"⟩ ∧
    recordAll (Json.obj [("message", Json.str "yo"),
        ("recipient", Json.str "bob"), ("timestamp", Json.str "200")]) =
      some ⟨Json.str "bob", Json.str "yo", Json.str "200"⟩ := by
  constructor
  · exact (retrieve_all_counterpart [("message", Json.str "hi"),
      ("from", Json.str "sender1"), ("timestamp", Json.str "100")]).1 rfl
  · exact (retrieve_all_counterpart [("message", Json.str "yo"),
      ("recipient", Json.str "bob"), ("timestamp", Json.str "200")]).2.1 rfl

/-- C8: `retrieve_new` returns the empty sequence on every failure — token
absent with the implicit connect failing, transport error, undecodable
response, error-type response — and on success returns exactly one message
object per raw record of the decoded batch. -/
theorem retrieve_new_failure_and_success (m : DMessenger) (env : CallEnv) :
    (jsonTruthy m.token = false → (m.connect env.connectEnv).1 = false →
      (m.retrieve_new env).messages = []) ∧
    (env.ioError = true → (m.retrieve_new env).messages = []) ∧
    (parse_messages env.loaded = none →
      (m.retrieve_new env).messages = []) ∧
    (∀ resp, parse_messages env.loaded = some resp →
      jsonEqStr resp.type "ok" = false →
      (m.retrieve_new env).messages = []) ∧
    (∀ resp xs ds, env.ioError = false →
      parse_messages env.loaded = some resp →
      jsonEqStr resp.type "ok" = true → resp.messages = Json.arr xs →
      mapRecords recordNew xs = some ds →
      (jsonTruthy m.token = true ∨ (m.connect env.connectEnv).1 = true) →
      (m.retrieve_new env).messages = ds ∧ ds.length = xs.length) := by
  have hguard : ∀ P : RetrieveOutcome → Prop,
      (∀ m2 a, P (retrieveBody recordNew m2 env a)) →
      (jsonTruthy m.token = true ∨ (m.connect env.connectEnv).1 = true) →
      P (m.retrieve_new env) := by
    intro P hbody hconn
    unfold DMessenger.retrieve_new retrieveWith
    cases ht : jsonTruthy m.token with
    | true => simp [ht]; exact hbody m 0
    | false =>
        simp [ht]
        cases hc : m.connect env.connectEnv with
        | mk b m1 =>
            cases b with
            | false =>
                rw [ht] at hconn
                rw [hc] at hconn
                simp at hconn
            | true => simp; exact hbody m1 1
  refine ⟨?_, ?_, ?_, ?_, ?_⟩
  · intro ht hc
    unfold DMessenger.retrieve_new retrieveWith
    rw [ht]
    simp
    cases hcc : m.connect env.connectEnv with
    | mk b m1 =>
        rw [hcc] at hc
        simp at hc
        simp [hc]
  · intro hio
    unfold DMessenger.retrieve_new retrieveWith
    cases ht : jsonTruthy m.token with
    | true => simp [retrieveBody, hio]
    | false =>
        simp
        cases m.connect env.connectEnv with
        | mk b m1 => cases b <;> simp [retrieveBody, hio]
  · intro hp
    unfold DMessenger.retrieve_new retrieveWith
    cases ht : jsonTruthy m.token with
    | true => simp [retrieveBody, hp]
    | false =>
        simp
        cases m.connect env.connectEnv with
        | mk b m1 =>
            cases b with
            | false => simp
            | true =>
                simp [retrieveBody, hp]
  · intro resp hp htype
    unfold DMessenger.retrieve_new retrieveWith
    cases ht : jsonTruthy m.token with
    | true => simp [retrieveBody, hp, htype]
    | false =>
        simp
        cases m.connect env.connectEnv with
        | mk b m1 =>
            cases b with
            | false => simp
            | true =>
                simp [retrieveBody]
                cases env.ioError <;> simp [hp, htype]
  · intro resp xs ds hio hp htype hmsgs hmap hconn
    refine ⟨?_, mapRecords_length recordNew xs ds hmap⟩
    refine hguard (fun r => r.messages = ds) ?_ hconn
    intro m2 a
    simp [retrieveBody, hio, hp, htype, hmsgs, hmap]

/-- Witness for C8: the failure cases at concrete inputs (connect refused;
transport error; unparseable line; error-type batch) and a successful
two-record batch mapped to two messages. -/
theorem retrieve_new_failure_and_success_witness :
    ((DirectMessenger_init none none none).retrieve_new
      ⟨ConnectEnv.refused, false, none⟩).messages = [] ∧
    (mConnected.retrieve_new ⟨ConnectEnv.refused, true, none⟩).messages
      = [] ∧
    (mConnected.retrieve_new ⟨ConnectEnv.refused, false, none⟩).messages
      = [] ∧
    (mConnected.retrieve_new ⟨ConnectEnv.refused, false,
        some (Json.obj [("response",
          Json.obj [("type", Json.str "error")])])⟩).messages = [] ∧
    ((mConnected.retrieve_new ⟨ConnectEnv.refused, false,
        some (Json.obj [("response", Json.obj [("type", Json.str "ok"),
          ("messages", Json.arr
            [Json.obj [("message", Json.str "a"),
                       ("from", Json.str "u1"),
                       ("timestamp", Json.str "1")],
             Json.obj [("message", Json.str "b"),
                       ("from", Json.str "u2"),
                       ("timestamp", Json.str "2")]])])])⟩).messages =
      [⟨Json.str "u1", Json.str "a", Json.str "1"⟩,
       ⟨Json.str "u2", Json.str "b", Json.str "2"⟩] ∧ (2 : Nat) = 2) := by
  refine ⟨?_, ?_, ?_, ?_, ?_⟩
  · exact (retrieve_new_failure_and_success (DirectMessenger_init none none
      none) ⟨ConnectEnv.refused, false, none⟩).1 rfl rfl
  · exact (retrieve_new_failure_and_success mConnected
      ⟨ConnectEnv.refused, true, none⟩).2.1 rfl
  · exact (retrieve_new_failure_and_success mConnected
      ⟨ConnectEnv.refused, false, none⟩).2.2.1 rfl
  · exact (retrieve_new_failure_and_success mConnected
      ⟨ConnectEnv.refused, false, some (Json.obj [("response",
        Json.obj [("type", Json.str "error")])])⟩).2.2.2.1
      ⟨Json.str "error", Json.arr []⟩ rfl rfl
  · exact (retrieve_new_failure_and_success mConnected
      ⟨ConnectEnv.refused, false, some (Json.obj [("response",
        Json.obj [("type", Json.str "ok"), ("messages", Json.arr
          [Json.obj [("message", Json.str "a"), ("from", Json.str "u1"),
             ("timestamp", Json.str "1")],
           Json.obj [("message", Json.str "b"), ("from", Json.str "u2"),
             ("timestamp", Json.str "2")]])])])⟩).2.2.2.2
      ⟨Json.str "ok", Json.arr
        [Json.obj [("message", Json.str "a"), ("from", Json.str "u1"),
           ("timestamp", Json.str "1")],
         Json.obj [("message", Json.str "b"), ("from", Json.str "u2"),
           ("timestamp", Json.str "2")]]⟩
      _ _ rfl rfl rfl rfl rfl (Or.inl rfl)

/-- C9 counterexample: `close()` does not clear the session token — a
messenger holding token `"T1"` still holds it, truthy, after `close()`
returns, so the claim that the messenger holds no token after `close()`
fails. -/
theorem close_keeps_token_counterexample :
    (mConnected.close).token = Json.str "T1" ∧
    jsonTruthy (mConnected.close).token = true := by
  exact ⟨rfl, rfl⟩

/-- C9 (amended): `close()` releases the stream and socket handles but
leaves `self.token` untouched; consequently a `send` issued after
`close()` still finds the token and performs no reconnect (zero
`connect()` attempts). -/
theorem close_token_behavior (m : DMessenger) (env : CallEnv) :
    (m.close).token = m.token ∧
    transportReleased m.close = true ∧
    (jsonTruthy m.token = true →
      ((m.close).send env).connectAttempts = 0) := by
  refine ⟨rfl, transportReleased_close m, ?_⟩
  intro h
  have ht : jsonTruthy (m.close).token = true := h
  simp [DMessenger.send, ht, sendBody_connectAttempts]

/-- Witness for C9: the connected messenger, closed, still sends without a
reconnect attempt. -/
theorem close_token_behavior_witness :
    (mConnected.close).token = mConnected.token ∧
    jsonTruthy mConnected.token = true ∧
    ((mConnected.close).send ⟨ConnectEnv.refused, false, none⟩).connectAttempts
      = 0 := by
  have h := close_token_behavior mConnected ⟨ConnectEnv.refused, false, none⟩
  exact ⟨h.1, rfl, h.2.2 rfl⟩

/-- A row of the `pending_messages` table of `database.py`
(`pending_id INTEGER PRIMARY KEY AUTOINCREMENT`, `attempts INTEGER
DEFAULT 0`); the `REAL` timestamp is carried as an opaque discrete value,
since the model only ever copies and compares it. -/
structure PendingRecord where
  pending_id : Nat
  user_id : Nat
  recipient : String
  content : String
  timestamp : Int
  attempts : Nat
deriving DecidableEq

/-- A row of the `messages` table (the columns the coordinator writes). -/
structure HistoryRecord where
  user_id : Nat
  sender : String
  recipient : String
  content : String
  timestamp : Int
deriving DecidableEq

/-- The `MessageDatabase` state the coordinator touches: the `messages`
and `contacts` tables and the `pending_messages` queue with its
AUTOINCREMENT counter (SQLite row ids start at 1). -/
structure DBState where
  messages : List HistoryRecord
  contacts : List (Nat × String)
  pending : List PendingRecord
  nextPendingId : Nat
deriving DecidableEq

/-- A freshly created database (`_init_database`): empty tables. -/
def initialDB : DBState := ⟨[], [], [], 1⟩

/-- `MessageDatabase.add_contact` (`INSERT OR IGNORE` under
`UNIQUE(user_id, friend_username)`). -/
def add_contact (db : DBState) (uid : Nat) (friend : String) : DBState :=
  if db.contacts.contains (uid, friend) then db
  else { db with contacts := db.contacts ++ [(uid, friend)] }

/-- `MessageDatabase.add_message`: inserts the row, then auto-adds
`other_user = recipient if sender != recipient else sender` (which is the
recipient in both branches) as a contact. -/
def add_message (db : DBState) (uid : Nat) (sender recipient content : String)
    (timestamp : Int) : DBState :=
  let db1 : DBState :=
    { db with messages :=
        db.messages ++ [⟨uid, sender, recipient, content, timestamp⟩] }
  add_contact db1 uid (if sender != recipient then recipient else sender)

/-- `MessageDatabase.add_pending_message`: one `INSERT` into
`pending_messages`; `attempts` takes its schema default 0 and the row gets
the next AUTOINCREMENT id. -/
def add_pending_message (db : DBState) (uid : Nat) (recipient content : String)
    (timestamp : Int) : DBState :=
  { db with
    pending :=
      db.pending ++ [⟨db.nextPendingId, uid, recipient, content, timestamp, 0⟩]
    nextPendingId := db.nextPendingId + 1 }

/-- Insertion into a timestamp-ascending list; together with
`sortByTimestamp` this realises the `ORDER BY timestamp ASC` of
`get_pending_messages` (SQLite leaves the order of ties unspecified; the
model keeps them in list order). -/
def insertByTimestamp (r : PendingRecord) :
    List PendingRecord → List PendingRecord
  | [] => [r]
  | x :: xs =>
      if x.timestamp ≤ r.timestamp then x :: insertByTimestamp r xs
      else r :: x :: xs

/-- Sorts pending rows by ascending timestamp. -/
def sortByTimestamp : List PendingRecord → List PendingRecord
  | [] => []
  | x :: xs => insertByTimestamp x (sortByTimestamp xs)

/-- `MessageDatabase.get_pending_messages(user_id)`:
`SELECT * FROM pending_messages WHERE user_id = ? AND attempts < 3 ORDER
BY timestamp ASC`. -/
def get_pending_messages (db : DBState) (uid : Nat) : List PendingRecord :=
  sortByTimestamp (db.pending.filter
    (fun r => r.user_id == uid && decide (r.attempts < 3)))

/-- `MessageDatabase.mark_pending_sent(pending_id)`: `DELETE` of the row. -/
def mark_pending_sent (db : DBState) (pid : Nat) : DBState :=
  { db with pending := db.pending.filter (fun r => r.pending_id != pid) }

/-- `MessageDatabase.increment_pending_attempts(pending_id)`:
`UPDATE pending_messages SET attempts = attempts + 1 WHERE pending_id = ?`
(defined by `database.py`, invoked from nowhere in `messenger.py`). -/
def increment_pending_attempts (db : DBState) (pid : Nat) : DBState :=
  { db with pending := db.pending.map (fun r =>
      if r.pending_id == pid then { r with attempts := r.attempts + 1 }
      else r) }

/-- The `msg_data` dict placed on `outgoing_queue` by `_send_message` and
`_flush_pending_messages`: original submissions carry no
`is_retry`/`pending_id` keys, which `_network_worker` reads back with
`.get('is_retry', False)` and `.get('pending_id')`; flush entries carry
both. -/
structure OutboundMessage where
  recipient : String
  content : String
  timestamp : Int
  is_retry : Bool
  pending_id : Option Nat
deriving DecidableEq

/-- Python truthiness of `pending_id` (`if pending_id:`). -/
def pidTruthy : Option Nat → Bool
  | none => false
  | some n => n != 0

/-- The events the workers put on `incoming_queue` for the GUI thread. -/
inductive GuiEvent where
  | sent_success (recipient : String)
  | new_message (sender content : String)
deriving DecidableEq

/-- `messenger.ConnectionState`. -/
inductive ConnectionState where
  | CONNECTED
  | DISCONNECTED
  | RECONNECTING
  | OFFLINE
deriving DecidableEq

/-- The `MessengerApp` attributes touched by the modelled worker paths
(`backoff_time` is set to 1 in `__init__` and never reassigned). -/
structure AppState where
  connection_state : ConnectionState
  retry_count : Nat
  backoff_time : Nat
  messenger : Option DMessenger
  db : DBState
  user_id : Nat
  username : String
  password : String
  outgoing_queue : List OutboundMessage
  incoming_queue : List GuiEvent

/-- `MessengerApp._connect()`: assigns a fresh `DirectMessenger` built
from the configured server and the stored credentials, then calls its
`connect()`; success sets `CONNECTED` and resets `retry_count` to 0,
failure sets `DISCONNECTED`. -/
def app_connect (a : AppState) (server : String) (env : ConnectEnv) :
    Bool × AppState :=
  match (DirectMessenger_init (some server) (some a.username)
      (some a.password)).connect env with
  | (true, m1) =>
      (true, { a with messenger := some m1,
                      connection_state := ConnectionState.CONNECTED,
                      retry_count := 0 })
  | (false, m1) =>
      (false, { a with messenger := some m1,
                       connection_state := ConnectionState.DISCONNECTED })

/-- The retry `msg_data` that `_flush_pending_messages` builds from a
pending row: the row's recipient, content and timestamp, `is_retry =
True`, and the row's `pending_id`. -/
def retryMessage (r : PendingRecord) : OutboundMessage :=
  ⟨r.recipient, r.content, r.timestamp, true, some r.pending_id⟩

/-- The sequence of messages `_flush_pending_messages` puts on
`outgoing_queue`: one retry per row of `get_pending_messages`. -/
def flushEnqueued (db : DBState) (uid : Nat) : List OutboundMessage :=
  (get_pending_messages db uid).map retryMessage

/-- `MessengerApp._flush_pending_messages()`. -/
def flush_pending_messages (a : AppState) : AppState :=
  { a with outgoing_queue :=
      a.outgoing_queue ++ flushEnqueued a.db a.user_id }

/-- `backoff = min(self.backoff_time * (2 ** self.retry_count), 60)` in
`_try_reconnect`. -/
def backoffDelay (b n : Nat) : Nat := min (b * 2 ^ n) 60

/-- Observables of one `_try_reconnect()` call: the resulting app state,
the backoff delay slept (`none` when no attempt is made), and whether a
`connect()` was attempted. -/
structure ReconnectOutcome where
  state : AppState
  delay : Option Nat
  connectAttempted : Bool

/-- `MessengerApp._try_reconnect()` (`max_retries` comes from config): at
`retry_count >= max_retries` it transitions to `OFFLINE` and returns
without an attempt; otherwise it sets `RECONNECTING`, sleeps the backoff
delay, increments `retry_count`, runs `_connect()`, and on success flushes
the pending queue. -/
def try_reconnect (a : AppState) (server : String) (max_retries : Nat)
    (env : ConnectEnv) : ReconnectOutcome :=
  if a.retry_count ≥ max_retries then
    ⟨{ a with connection_state := ConnectionState.OFFLINE }, none, false⟩
  else
    let a1 : AppState := { a with connection_state :=
      ConnectionState.RECONNECTING }
    let delay := backoffDelay a1.backoff_time a1.retry_count
    let a2 : AppState := { a1 with retry_count := a1.retry_count + 1 }
    match app_connect a2 server env with
    | (true, a3) => ⟨flush_pending_messages a3, some delay, true⟩
    | (false, a3) => ⟨a3, some delay, true⟩

/-- `MessengerApp._handle_send_failure(msg_data)`: persists a new pending
row when the failed message was not already a retry (it never calls
`increment_pending_attempts`), sets `DISCONNECTED`, and runs
`_try_reconnect`. -/
def handle_send_failure (a : AppState) (msg : OutboundMessage)
    (server : String) (max_retries : Nat) (env : ConnectEnv) :
    ReconnectOutcome :=
  let a1 : AppState :=
    if msg.is_retry then a
    else
      { a with
        db :=
          add_pending_message a.db a.user_id msg.recipient msg.content
            msg.timestamp }
  try_reconnect
    { a1 with connection_state := ConnectionState.DISCONNECTED }
    server max_retries env

/-- Observables of one `_network_worker` iteration: the resulting app
state and the number of `DirectMessenger.send` invocations. -/
structure WorkerOutcome where
  state : AppState
  dmSendCalls : Nat

/-- One iteration of the `_network_worker` loop body on a dequeued `msg`:
* `CONNECTED` with a messenger: `DirectMessenger.send`; on success the row
  is stored with `add_message`, a truthy `pending_id` is deleted with
  `mark_pending_sent`, and a `sent_success` event is emitted; on failure
  `_handle_send_failure` runs;
* `CONNECTED` with `self.messenger` still `None`: the `and` short-circuits
  and `_handle_send_failure` runs without any send call;
* any other connection state: an original (non-retry) message is persisted
  as one pending row and a retry is dropped — no network call is made. -/
def network_worker_step (a : AppState) (msg : OutboundMessage)
    (server : String) (max_retries : Nat) (sendEnv : CallEnv)
    (reconnectEnv : ConnectEnv) : WorkerOutcome :=
  if a.connection_state = ConnectionState.CONNECTED then
    match a.messenger with
    | some m =>
        let out := m.send sendEnv
        if out.result then
          let db1 :=
            add_message a.db a.user_id a.username msg.recipient msg.content
              msg.timestamp
          let db2 :=
            if pidTruthy msg.pending_id then
              mark_pending_sent db1 (msg.pending_id.getD 0)
            else db1
          ⟨{ a with
              messenger := some out.state
              db := db2
              incoming_queue :=
                a.incoming_queue ++ [GuiEvent.sent_success msg.recipient] },
            1⟩
        else
          ⟨(handle_send_failure { a with messenger := some out.state } msg
              server max_retries reconnectEnv).state, 1⟩
    | none =>
        ⟨(handle_send_failure a msg server max_retries reconnectEnv).state, 0⟩
  else
    if msg.is_retry then ⟨a, 0⟩
    else
      ⟨{ a with
          db :=
            add_pending_message a.db a.user_id msg.recipient msg.content
              msg.timestamp },
        0⟩

/-- The database states reachable through the `MessageDatabase` write
operations that `messenger.py` invokes: `add_message`, `add_contact`,
`add_pending_message`, `mark_pending_sent`.  The coordinator calls neither
`increment_pending_attempts` nor `clear_pending_messages`, and the
user-table writes (`get_or_create_user`, `update_user_password`) do not
touch the tables modelled here. -/
inductive ReachableDB : DBState → Prop where
  | init : ReachableDB initialDB
  | addMessage (db : DBState) (uid : Nat) (sender recipient content : String)
      (ts : Int) : ReachableDB db →
      ReachableDB (add_message db uid sender recipient content ts)
  | addContact (db : DBState) (uid : Nat) (friend : String) :
      ReachableDB db → ReachableDB (add_contact db uid friend)
  | addPending (db : DBState) (uid : Nat) (recipient content : String)
      (ts : Int) : ReachableDB db →
      ReachableDB (add_pending_message db uid recipient content ts)
  | markSent (db : DBState) (pid : Nat) :
      ReachableDB db → ReachableDB (mark_pending_sent db pid)

/-- A logged-in app that is currently disconnected, with a fresh
database. -/
def appBase : AppState :=
  { connection_state := ConnectionState.DISCONNECTED, retry_count := 0,
    backoff_time := 1, messenger := none, db := initialDB, user_id := 1,
    username := "alice", password := "pw", outgoing_queue := [],
    incoming_queue := [] }

/-- A connect environment in which the server accepts the join with an
`ok` response carrying a token. -/
def envOk : ConnectEnv :=
  ConnectEnv.established false (some (Json.obj [("response",
    Json.obj [("type", Json.str "ok"), ("token", Json.str "T2")])]))

/-- A database holding one pending row with `attempts = 0` and one with
`attempts = 3` for user 1. -/
def dbTwo : DBState :=
  { messages := [], contacts := [],
    pending := [⟨1, 1, "bob", "hi", 5, 0⟩, ⟨2, 1, "carol", "yo", 6, 3⟩],
    nextPendingId := 3 }

/-- `appBase` over `dbTwo`. -/
def appTwo : AppState := { appBase with db := dbTwo }

theorem mem_insertByTimestamp (a r : PendingRecord) (l : List PendingRecord) :
    a ∈ insertByTimestamp r l ↔ a = r ∨ a ∈ l := by
  induction l with
  | nil => simp [insertByTimestamp]
  | cons x xs ih =>
      simp only [insertByTimestamp]
      split
      · simp only [List.mem_cons, ih]
        tauto
      · simp only [List.mem_cons]

theorem mem_sortByTimestamp (a : PendingRecord) (l : List PendingRecord) :
    a ∈ sortByTimestamp l ↔ a ∈ l := by
  induction l with
  | nil => simp [sortByTimestamp]
  | cons x xs ih => simp [sortByTimestamp, mem_insertByTimestamp, ih]

theorem mem_flushEnqueued (db : DBState) (uid : Nat) (mo : OutboundMessage) :
    mo ∈ flushEnqueued db uid ↔
      ∃ r, r ∈ db.pending ∧ r.user_id = uid ∧ r.attempts < 3 ∧
        mo = retryMessage r := by
  simp only [flushEnqueued, get_pending_messages, List.mem_map,
    mem_sortByTimestamp, List.mem_filter]
  constructor
  · rintro ⟨r, ⟨hr, hp⟩, he⟩
    simp at hp
    exact ⟨r, hr, hp.1, hp.2, he.symm⟩
  · rintro ⟨r, hr, hu, ha, he⟩
    refine ⟨r, ⟨hr, ?_⟩, he.symm⟩
    simp [hu, ha]

theorem pending_add_contact (db : DBState) (uid : Nat) (friend : String) :
    (add_contact db uid friend).pending = db.pending := by
  unfold add_contact
  split <;> rfl

theorem pending_add_message (db : DBState) (uid : Nat)
    (sender recipient content : String) (ts : Int) :
    (add_message db uid sender recipient content ts).pending = db.pending := by
  simp [add_message, pending_add_contact]

/-- C10: in every database state reachable through the operations the
coordinator invokes, every row of `pending_messages` still carries its
schema-default `attempts = 0` (the coordinator never calls
`increment_pending_attempts`), so the `attempts < 3` filter of
`get_pending_messages` excludes no row: the query returns exactly the
user's rows. -/
theorem pending_attempts_zero (db : DBState) (h : ReachableDB db) :
    (∀ r, r ∈ db.pending → r.attempts = 0) ∧
    (∀ uid, get_pending_messages db uid =
      sortByTimestamp (db.pending.filter (fun r => r.user_id == uid))) := by
  have hzero : ∀ r, r ∈ db.pending → r.attempts = 0 := by
    induction h with
    | init => intro r hr; simp [initialDB] at hr
    | addMessage db2 uid sender recipient content ts h2 ih =>
        intro r hr
        rw [pending_add_message] at hr
        exact ih r hr
    | addContact db2 uid friend h2 ih =>
        intro r hr
        rw [pending_add_contact] at hr
        exact ih r hr
    | addPending db2 uid recipient content ts h2 ih =>
        intro r hr
        simp [add_pending_message] at hr
        cases hr with
        | inl h3 => exact ih r h3
        | inr h3 => rw [h3]
    | markSent db2 pid h2 ih =>
        intro r hr
        simp [mark_pending_sent, List.mem_filter] at hr
        exact ih r hr.1
  refine ⟨hzero, ?_⟩
  intro uid
  unfold get_pending_messages
  congr 1
  apply List.filter_congr
  intro r hr
  simp [hzero r hr]

/-- Witness for C10: a reachable state holding one freshly queued pending
row, on which the filtered query coincides with the unfiltered one. -/
theorem pending_attempts_zero_witness :
    get_pending_messages (add_pending_message initialDB 1 "bob" "hi" 5) 1 =
      sortByTimestamp
        ((add_pending_message initialDB 1 "bob" "hi" 5).pending.filter
          (fun r => r.user_id == 1)) :=
  (pending_attempts_zero _
    (ReachableDB.addPending initialDB 1 "bob" "hi" 5 ReachableDB.init)).2 1

/-- C2: when the connection state is not `CONNECTED` and the dequeued
message is an original (non-retry) one, the worker iteration creates
exactly one pending row — the schema-default row for this message — calls
`DirectMessenger.send` zero times, and leaves the message history
untouched. -/
theorem offline_original_one_pending (a : AppState) (msg : OutboundMessage)
    (server : String) (mr : Nat) (sendEnv : CallEnv) (rEnv : ConnectEnv)
    (hstate : a.connection_state ≠ ConnectionState.CONNECTED)
    (horig : msg.is_retry = false) :
    (network_worker_step a msg server mr sendEnv rEnv).dmSendCalls = 0 ∧
    (network_worker_step a msg server mr sendEnv rEnv).state.db.pending =
      a.db.pending ++
        [⟨a.db.nextPendingId, a.user_id, msg.recipient, msg.content,
          msg.timestamp, 0⟩] ∧
    (network_worker_step a msg server mr sendEnv rEnv).state.db.messages =
      a.db.messages := by
  simp [network_worker_step, hstate, horig, add_pending_message]

/-- Witness for C2: a disconnected app submitting an original message
yields exactly one queued pending row, no send call and no history row. -/
theorem offline_original_one_pending_witness :
    appBase.connection_state ≠ ConnectionState.CONNECTED ∧
    (network_worker_step appBase ⟨"bob", "hi", 5, false, none⟩ "srv" 5
        ⟨ConnectEnv.refused, false, none⟩ ConnectEnv.refused).dmSendCalls
      = 0 ∧
    (network_worker_step appBase ⟨"bob", "hi", 5, false, none⟩ "srv" 5
        ⟨ConnectEnv.refused, false, none⟩ ConnectEnv.refused).state.db.pending
      = [⟨1, 1, "bob", "hi", 5, 0⟩] := by
  have h := offline_original_one_pending appBase ⟨"bob", "hi", 5, false, none⟩
    "srv" 5 ⟨ConnectEnv.refused, false, none⟩ ConnectEnv.refused
    (by decide) rfl
  refine ⟨by decide, h.1, ?_⟩
  rw [h.2.1]
  rfl

/-- C6: while `retry_count < max_retries`, `_try_reconnect` sleeps exactly
`min(backoff_time * 2 ** retry_count, 60)` and attempts a `connect()`;
this delay sequence is non-decreasing in `retry_count` and strictly
increasing as long as it is below the 60-second cap; once `retry_count`
reaches `max_retries` the machine transitions to `OFFLINE` with no delay
and no connect attempt; and a successful connect resets `retry_count` to 0
and sets `CONNECTED`. -/
theorem reconnect_backoff_policy (a : AppState) (server : String) (mr : Nat)
    (env : ConnectEnv) :
    (a.retry_count < mr →
      (try_reconnect a server mr env).delay =
        some (backoffDelay a.backoff_time a.retry_count) ∧
      (try_reconnect a server mr env).connectAttempted = true) ∧
    (∀ b n, backoffDelay b n ≤ backoffDelay b (n + 1)) ∧
    (∀ b n, 1 ≤ b → backoffDelay b n < 60 →
      backoffDelay b n < backoffDelay b (n + 1)) ∧
    (a.retry_count ≥ mr →
      (try_reconnect a server mr env).state.connection_state =
        ConnectionState.OFFLINE ∧
      (try_reconnect a server mr env).connectAttempted = false ∧
      (try_reconnect a server mr env).delay = none) ∧
    (a.retry_count < mr →
      ((DirectMessenger_init (some server) (some a.username)
          (some a.password)).connect env).1 = true →
      (try_reconnect a server mr env).state.retry_count = 0 ∧
      (try_reconnect a server mr env).state.connection_state =
        ConnectionState.CONNECTED) := by
  refine ⟨?_, ?_, ?_, ?_, ?_⟩
  · intro hlt
    have hnot : ¬ (a.retry_count ≥ mr) := Nat.not_le.mpr hlt
    cases hc : (DirectMessenger_init (some server) (some a.username)
        (some a.password)).connect env with
    | mk ok m1 =>
        cases ok <;>
          simp [try_reconnect, hnot, app_connect, hc, flush_pending_messages]
  · intro b n
    have hmul : b * 2 ^ n ≤ b * 2 ^ (n + 1) := by
      rw [pow_succ, ← mul_assoc]
      have h2 := Nat.mul_le_mul (Nat.le_refl (b * 2 ^ n))
        (show 1 ≤ 2 by norm_num)
      simpa using h2
    exact min_le_min hmul le_rfl
  · intro b n hb hlt
    have hx : b * 2 ^ n < 60 := by
      by_contra hge
      push_neg at hge
      rw [backoffDelay, min_eq_right hge] at hlt
      exact lt_irrefl _ hlt
    have heq : backoffDelay b n = b * 2 ^ n :=
      min_eq_left (le_of_lt hx)
    have hpos : 0 < b * 2 ^ n :=
      Nat.mul_pos hb (pow_pos (by norm_num) n)
    have hdouble : b * 2 ^ (n + 1) = 2 * (b * 2 ^ n) := by ring
    rw [heq, backoffDelay, hdouble]
    have key : ∀ q : Nat, 0 < q → q < 60 → q < min (2 * q) 60 := by
      intro q h1 h2
      apply lt_min <;> omega
    exact key (b * 2 ^ n) hpos hx
  · intro hge
    unfold try_reconnect
    rw [if_pos hge]
    exact ⟨rfl, rfl, rfl⟩
  · intro hlt hconn
    have hnot : ¬ (a.retry_count ≥ mr) := Nat.not_le.mpr hlt
    cases hc : (DirectMessenger_init (some server) (some a.username)
        (some a.password)).connect env with
    | mk ok m1 =>
        rw [hc] at hconn
        simp at hconn
        subst hconn
        simp [try_reconnect, hnot, app_connect, hc, flush_pending_messages]

/-- Witness for C6: concrete delays (1 at retry 0; 8 then 16 at retries 3
and 4), the `OFFLINE` transition at `retry_count = max_retries = 5`, and a
successful reconnect resetting `retry_count`. -/
theorem reconnect_backoff_policy_witness :
    (try_reconnect appBase "srv" 5 ConnectEnv.refused).delay = some 1 ∧
    (try_reconnect appBase "srv" 5
      ConnectEnv.refused).connectAttempted = true ∧
    backoffDelay 1 3 ≤ backoffDelay 1 4 ∧
    backoffDelay 1 3 < backoffDelay 1 4 ∧
    (try_reconnect { appBase with retry_count := 5 } "srv" 5
        ConnectEnv.refused).state.connection_state =
      ConnectionState.OFFLINE ∧
    (try_reconnect appBase "srv" 5 envOk).state.retry_count = 0 ∧
    (try_reconnect appBase "srv" 5 envOk).state.connection_state =
      ConnectionState.CONNECTED := by
  have h := reconnect_backoff_policy appBase "srv" 5 ConnectEnv.refused
  have h2 := reconnect_backoff_policy { appBase with retry_count := 5 }
    "srv" 5 ConnectEnv.refused
  have h3 := reconnect_backoff_policy appBase "srv" 5 envOk
  refine ⟨(h.1 (by decide)).1, (h.1 (by decide)).2, h.2.1 1 3,
    h.2.2.1 1 3 (by decide) (by decide), (h2.2.2.2.1 (by decide)).1,
    (h3.2.2.2.2 (by decide) rfl).1, (h3.2.2.2.2 (by decide) rfl).2⟩

/-- C1: once `_try_reconnect`'s `connect()` succeeds, the flush puts on
`outgoing_queue` exactly one retry per pending row of the active user with
`attempts < 3` — each flagged `is_retry = True`, carrying the row's
`pending_id` and preserving its recipient, content and timestamp — and no
row with `attempts >= 3` contributes an enqueued message. -/
theorem flush_reenqueues (a : AppState) (server : String) (mr : Nat)
    (env : ConnectEnv) (hlt : a.retry_count < mr)
    (hconn : ((DirectMessenger_init (some server) (some a.username)
      (some a.password)).connect env).1 = true) :
    (try_reconnect a server mr env).state.outgoing_queue =
      a.outgoing_queue ++ flushEnqueued a.db a.user_id ∧
    (∀ r, r ∈ a.db.pending → r.user_id = a.user_id → r.attempts < 3 →
      retryMessage r ∈ flushEnqueued a.db a.user_id) ∧
    (∀ mo, mo ∈ flushEnqueued a.db a.user_id →
      mo.is_retry = true ∧
      ∃ r, r ∈ a.db.pending ∧ r.user_id = a.user_id ∧ r.attempts < 3 ∧
        mo.pending_id = some r.pending_id ∧ mo.recipient = r.recipient ∧
        mo.content = r.content ∧ mo.timestamp = r.timestamp) := by
  refine ⟨?_, ?_, ?_⟩
  · have hnot : ¬ (a.retry_count ≥ mr) := Nat.not_le.mpr hlt
    cases hc : (DirectMessenger_init (some server) (some a.username)
        (some a.password)).connect env with
    | mk ok m1 =>
        rw [hc] at hconn
        simp at hconn
        subst hconn
        simp [try_reconnect, hnot, app_connect, hc, flush_pending_messages]
  · intro r hr hu ha
    exact (mem_flushEnqueued a.db a.user_id (retryMessage r)).mpr
      ⟨r, hr, hu, ha, rfl⟩
  · intro mo hmo
    obtain ⟨r, hr, hu, ha, he⟩ :=
      (mem_flushEnqueued a.db a.user_id mo).mp hmo
    subst he
    exact ⟨rfl, r, hr, hu, ha, rfl, rfl, rfl, rfl⟩

/-- Witness for C1: a database holding one row at `attempts = 0` and one
at `attempts = 3`; after a successful reconnect the queue holds exactly
the retry for the first row. -/
theorem flush_reenqueues_witness :
    (try_reconnect appTwo "srv" 5 envOk).state.outgoing_queue =
      [⟨"bob", "hi", 5, true, some 1⟩] ∧
    retryMessage ⟨1, 1, "bob", "hi", 5, 0⟩ ∈ flushEnqueued dbTwo 1 ∧
    (retryMessage ⟨1, 1, "bob", "hi", 5, 0⟩).is_retry = true := by
  have h := flush_reenqueues appTwo "srv" 5 envOk (by decide) rfl
  refine ⟨?_, ?_, rfl⟩
  · rw [h.1]
    rfl
  · exact h.2.1 ⟨1, 1, "bob", "hi", 5, 0⟩ (by decide) rfl (by decide)

end Messenger
